import Mathlib

/-!
The u8g2emu display-protocol translator and menu-key mapper.

A shallow embedding of `src/u8g2emu.c`.

* The process-wide record `static u8g2emu_t u8g2emu = {0}` is passed explicitly:
  every function takes the session and returns the new one.
* Pointers owned by the session (`window`, `page_surface`, `palette`) are `Option`s;
  `none` is the C `NULL`.  Dereferencing `NULL`, reading the payload past its end and
  storing past the end of the pixel memory are faults: the functions return `Except Fault`.
* What the SDL library answers (does a creation succeed, does a conversion or a blit
  succeed) is not decided by this program; it is an input, `SdlEnv`.  A window that was
  created has a window surface (`SDL_GetWindowSurface` of a live window is not `NULL`).
* Every library call and every diagnostic line the code issues is recorded, in order, in
  `Outcome.effects`; every payload read and pixel store in `Outcome.accesses`.
* `uint8_t` values and `Uint32` values are `Nat`s, `int` values are `Int`s.  The constants
  of `u8x8.h` and `SDL.h` (headers outside this repository) are parameters,
  `U8x8Codes` and `SdlCodes`.
-/

namespace U8g2emu

/-! ## Constants of the headers -/

/-- The message codes of `u8x8.h` used by `u8g2emu.c`.  The four `BYTE` codes are the
`case` labels of one `switch`, so they are pairwise different. -/
structure U8x8Codes where
  U8X8_MSG_BYTE_SEND : Nat
  U8X8_MSG_BYTE_SET_DC : Nat
  U8X8_MSG_BYTE_START_TRANSFER : Nat
  U8X8_MSG_BYTE_END_TRANSFER : Nat
  U8X8_MSG_GPIO_MENU_UP : Nat
  U8X8_MSG_GPIO_MENU_DOWN : Nat
  U8X8_MSG_GPIO_MENU_PREV : Nat
  U8X8_MSG_GPIO_MENU_NEXT : Nat
  U8X8_MSG_GPIO_MENU_SELECT : Nat
  U8X8_MSG_GPIO_MENU_HOME : Nat
  case_labels : [U8X8_MSG_BYTE_SEND, U8X8_MSG_BYTE_SET_DC, U8X8_MSG_BYTE_START_TRANSFER,
    U8X8_MSG_BYTE_END_TRANSFER].Nodup

/-- The values the u8g2 library gives these codes. -/
def u8x8Codes : U8x8Codes where
  U8X8_MSG_BYTE_SEND := 23
  U8X8_MSG_BYTE_SET_DC := 32
  U8X8_MSG_BYTE_START_TRANSFER := 24
  U8X8_MSG_BYTE_END_TRANSFER := 25
  U8X8_MSG_GPIO_MENU_UP := 84
  U8X8_MSG_GPIO_MENU_DOWN := 85
  U8X8_MSG_GPIO_MENU_PREV := 82
  U8X8_MSG_GPIO_MENU_NEXT := 81
  U8X8_MSG_GPIO_MENU_SELECT := 80
  U8X8_MSG_GPIO_MENU_HOME := 83
  case_labels := by decide

/-- The event type and key codes of `SDL.h` used by `u8x8_GetMenuEvent`.  The six key codes
are the `case` labels of one `switch`, so they are pairwise different. -/
structure SdlCodes where
  SDL_KEYDOWN : Nat
  SDLK_UP : Int
  SDLK_DOWN : Int
  SDLK_LEFT : Int
  SDLK_RIGHT : Int
  SDLK_RETURN : Int
  SDLK_ESCAPE : Int
  case_labels : [SDLK_UP, SDLK_DOWN, SDLK_LEFT, SDLK_RIGHT, SDLK_RETURN, SDLK_ESCAPE].Nodup

/-- The values SDL2 gives these codes. -/
def sdlCodes : SdlCodes where
  SDL_KEYDOWN := 768
  SDLK_UP := 1073741906
  SDLK_DOWN := 1073741905
  SDLK_LEFT := 1073741904
  SDLK_RIGHT := 1073741903
  SDLK_RETURN := 13
  SDLK_ESCAPE := 27
  case_labels := by decide

/-! ## Data model -/

/-- An `SDL_Color`. -/
structure SDL_Color where
  r : Nat
  g : Nat
  b : Nat
  a : Nat
deriving DecidableEq, Repr

/-- An `SDL_Rect`. -/
structure SDL_Rect where
  x : Int
  y : Int
  w : Int
  h : Int
deriving DecidableEq, Repr

/-- The window made by `SDL_CreateWindow`. -/
structure SDL_Window where
  title : String
  w : Nat
  h : Nat
deriving DecidableEq, Repr

/-- An 8-bit indexed surface: `pixels` is its pixel memory, one byte per pixel, row after
row (`h` rows of `w` bytes). -/
structure SDL_Surface where
  w : Nat
  h : Nat
  pixels : List Nat
  palette : Option (List SDL_Color)
deriving DecidableEq, Repr

/-- The session record `u8g2emu_t`. -/
structure u8g2emu_t where
  current_page : Int
  data_enabled : Int
  window : Option SDL_Window
  page_surface : Option SDL_Surface
  palette : Option (List SDL_Color)
deriving DecidableEq, Repr

/-- The global `static u8g2emu_t u8g2emu = {0}` before any call. -/
def u8g2emu : u8g2emu_t where
  current_page := 0
  data_enabled := 0
  window := none
  page_surface := none
  palette := none

/-- The answers of the SDL library during one call of the message callback: `true` is
success. -/
structure SdlEnv where
  createWindow : Bool
  allocPalette : Bool
  createSurface : Bool
  setSurfacePalette : Bool
  convertSurface : Bool
  blitScaled : Bool
deriving DecidableEq, Repr

/-- The diagnostic lines written to `stderr`. -/
inductive Diag where
  | couldNotCreateWindow
  | couldNotCreateSurface
  | couldNotSetSurfacePalette
  | convertSurface
  | blitError
deriving DecidableEq, Repr

/-- The library calls and diagnostics issued by the code. -/
inductive Effect where
  | sdlInit
  | createWindow (w h : Nat)
  | allocPalette (ncolors : Nat)
  | setPaletteColors (colors : List SDL_Color)
  | createSurface (w h : Nat)
  | setSurfacePalette
  | lockSurface
  | unlockSurface
  | getWindowSurface
  | convertSurface
  | blitScaled (srcPresent : Bool) (dstrect : SDL_Rect)
  | freeSurface
  | updateWindowSurface
  | diag (d : Diag)
deriving DecidableEq, Repr

/-- The memory accesses of the callback: reads of `bytes[i]` and stores to `pixels[idx]`. -/
inductive Access where
  | readByte (i : Nat)
  | writePixel (idx : Nat) (v : Nat)
deriving DecidableEq, Repr

/-- The ways a call can go wrong. -/
inductive Fault where
  | nullPageSurface
  | nullWindowSurface
  | payloadOutOfBounds
  | pixelOutOfBounds
deriving DecidableEq, Repr

/-- What one call of the message callback leaves behind. -/
structure Outcome where
  session : u8g2emu_t
  effects : List Effect
  accesses : List Access
  ret : Nat
deriving DecidableEq, Repr

/-! ## Machine arithmetic and loops -/

/-- The value of an `int` expression, kept in 32 bits, two's complement. -/
def wrapInt32 (x : Int) : Int := (x + 2147483648) % 4294967296 - 2147483648

/-- The loop `for (k = 0; k < n; ++k) body`: runs `body 0`, ..., `body (n-1)` in this order
and stops at the first fault. -/
def forUpTo {σ : Type} : Nat → (Nat → σ → Except Fault σ) → σ → Except Fault σ
  | 0, _, s => .ok s
  | n + 1, body, s =>
    match forUpTo n body s with
    | .error e => .error e
    | .ok s1 => body n s1

/-! ## u8g2emu_Setup -/

/-- The two palette entries set at lines 65-74: black, then white. -/
def paletteColors : List SDL_Color := [⟨0, 0, 0, 255⟩, ⟨255, 255, 255, 255⟩]

/-- The surface `SDL_CreateRGBSurfaceWithFormat(0, w, h, 1, SDL_PIXELFORMAT_INDEX8)` makes:
`w * h` bytes of pixel memory, all zero, no palette yet. -/
def createIndex8Surface (w h : Nat) : SDL_Surface :=
  { w := w, h := h, pixels := List.replicate (w * h) 0, palette := none }

/-- The function `u8g2emu_Setup`: returns the session, what it issued, and its return
value (0 on success, 1 on failure). -/
def u8g2emu_Setup (env : SdlEnv) (emu : u8g2emu_t) : u8g2emu_t × List Effect × Nat :=
  let emu := { emu with current_page := 0, data_enabled := 0 }
  let fx := [Effect.sdlInit, Effect.createWindow 256 128]
  let emu := { emu with
    window := if env.createWindow then some ⟨"u8g2emu", 256, 128⟩ else none }
  if emu.window.isNone then
    (emu, fx ++ [Effect.diag Diag.couldNotCreateWindow], 1)
  else
    let emu := { emu with
      palette := if env.allocPalette then some paletteColors else none }
    let fx := fx ++ [Effect.allocPalette 2, Effect.setPaletteColors paletteColors]
    let emu := { emu with
      page_surface := if env.createSurface
        then some (createIndex8Surface 128 8) else none }
    let fx := fx ++ [Effect.createSurface 128 8]
    match emu.page_surface with
    | none => (emu, fx ++ [Effect.diag Diag.couldNotCreateSurface], 1)
    | some surf =>
      let fx := fx ++ [Effect.setSurfacePalette]
      if env.setSurfacePalette then
        ({ emu with page_surface := some { surf with palette := emu.palette } }, fx, 0)
      else
        (emu, fx ++ [Effect.diag Diag.couldNotSetSurfacePalette], 1)

/-! ## u8g2emu_msg_callback -/

/-- The value stored at line 119: `(byte & (1 << bit)) ? 1 : 0`. -/
def pixelValue (byte bit : Nat) : Nat := if byte &&& (1 <<< bit) ≠ 0 then 1 else 0

/-- The pixel memory being written, with the accesses made so far. -/
structure Raster where
  pixels : List Nat
  accesses : List Access
deriving DecidableEq, Repr

/-- The statement at line 119: `pixels[bit * 128 + i] = (bytes[i] & (1 << bit)) ? 1 : 0`. -/
def storePixel (bytes : List Nat) (i bit : Nat) (r : Raster) : Except Fault Raster :=
  match bytes[i]? with
  | none => .error .payloadOutOfBounds
  | some byte =>
    if bit * 128 + i < r.pixels.length then
      .ok { pixels := r.pixels.set (bit * 128 + i) (pixelValue byte bit)
            accesses := r.accesses ++
              [Access.readByte i, Access.writePixel (bit * 128 + i) (pixelValue byte bit)] }
    else .error .pixelOutOfBounds

/-- The loops at lines 117-119. -/
def writePage (bytes : List Nat) (r : Raster) : Except Fault Raster :=
  forUpTo 128 (fun i r1 => forUpTo 8 (fun bit r2 => storePixel bytes i bit r2) r1) r

/-- The state of the command loop: the page cursor and the reads made so far. -/
structure CmdScan where
  current_page : Int
  accesses : List Access
deriving DecidableEq, Repr

/-- The body of the loop at lines 144-150: `bytes[i]` is read for the first comparison,
again for the second when the first holds, and again for the assignment when both hold. -/
def scanCommand (bytes : List Nat) (i : Nat) (c : CmdScan) : Except Fault CmdScan :=
  match bytes[i]? with
  | none => .error .payloadOutOfBounds
  | some byte =>
    if 0xb0 ≤ byte then
      if byte < 0xb8 then
        .ok { current_page := (byte : Int) - 0xb0
              accesses := c.accesses ++
                [Access.readByte i, Access.readByte i, Access.readByte i] }
      else
        .ok { c with accesses := c.accesses ++ [Access.readByte i, Access.readByte i] }
    else
      .ok { c with accesses := c.accesses ++ [Access.readByte i] }

/-- The `U8X8_MSG_BYTE_SEND` case with `data_enabled` set, lines 115-140. -/
def sendData (env : SdlEnv) (s : u8g2emu_t) (fx : List Effect) (bytes : List Nat) :
    Except Fault Outcome :=
  match s.page_surface with
  | none => .error .nullPageSurface
  | some surf =>
    match writePage bytes { pixels := surf.pixels, accesses := [] } with
    | .error e => .error e
    | .ok r =>
      let s := { s with page_surface := some { surf with pixels := r.pixels } }
      let fx := fx ++ [Effect.lockSurface, Effect.unlockSurface]
      match s.window with
      | none => .error .nullWindowSurface
      | some _ =>
        let cs := env.convertSurface
        let fx := fx ++ [Effect.getWindowSurface, Effect.convertSurface]
        let fx := if cs then fx else fx ++ [Effect.diag Diag.convertSurface]
        let dstrect : SDL_Rect :=
          { x := 0, y := wrapInt32 (wrapInt32 (s.current_page * 8) * 2), w := 256, h := 16 }
        let fx := fx ++ [Effect.getWindowSurface, Effect.blitScaled cs dstrect]
        let fx := if cs && env.blitScaled then fx else fx ++ [Effect.diag Diag.blitError]
        let fx := fx ++ [Effect.freeSurface]
        let fx := if s.current_page = 7 then fx ++ [Effect.updateWindowSurface] else fx
        .ok { session := s, effects := fx, accesses := r.accesses, ret := 1 }

/-- The `U8X8_MSG_BYTE_SEND` case with `data_enabled` clear, lines 144-150. -/
def sendCommands (s : u8g2emu_t) (fx : List Effect) (arg_int : Nat) (bytes : List Nat) :
    Except Fault Outcome :=
  match forUpTo arg_int (scanCommand bytes)
      { current_page := s.current_page, accesses := [] } with
  | .error e => .error e
  | .ok c =>
    .ok { session := { s with current_page := c.current_page }, effects := fx,
          accesses := c.accesses, ret := 1 }

/-- The `switch (msg)` of lines 110-163, on the session `s`; `fx` is what was issued
before it. -/
def handleMessage (k : U8x8Codes) (env : SdlEnv) (s : u8g2emu_t) (fx : List Effect)
    (msg arg_int : Nat) (bytes : List Nat) : Except Fault Outcome :=
  if msg = k.U8X8_MSG_BYTE_SEND then
    if s.data_enabled ≠ 0 then sendData env s fx bytes
    else sendCommands s fx arg_int bytes
  else if msg = k.U8X8_MSG_BYTE_SET_DC then
    .ok { session := { s with data_enabled := (arg_int : Int) }, effects := fx,
          accesses := [], ret := 1 }
  else if msg = k.U8X8_MSG_BYTE_START_TRANSFER then
    .ok { session := s, effects := fx, accesses := [], ret := 1 }
  else if msg = k.U8X8_MSG_BYTE_END_TRANSFER then
    .ok { session := s, effects := fx, accesses := [], ret := 1 }
  else
    .ok { session := s, effects := fx, accesses := [], ret := 1 }

/-- The function `u8g2emu_msg_callback`, on the session `s0`, for the message `msg` with
argument `arg_int` and payload `bytes` (the memory `arg_ptr` points to): the lazy
initialisation of lines 106-107, then the `switch`. -/
def u8g2emu_msg_callback (k : U8x8Codes) (env : SdlEnv) (s0 : u8g2emu_t)
    (msg arg_int : Nat) (bytes : List Nat) : Except Fault Outcome :=
  if s0.window.isNone then
    handleMessage k env (u8g2emu_Setup env s0).1 (u8g2emu_Setup env s0).2.1 msg arg_int bytes
  else
    handleMessage k env s0 [] msg arg_int bytes

/-- The function `u8g2emu_gpio_and_delay`. -/
def u8g2emu_gpio_and_delay (_msg _arg_int : Nat) : Nat := 1

/-! ## u8x8_GetMenuEvent -/

/-- The fields of the `SDL_Event` that `u8x8_GetMenuEvent` reads: `type` and
`key.keysym.sym`. -/
structure SDL_Event where
  type : Nat
  sym : Int
deriving DecidableEq, Repr

/-- The function `u8x8_GetMenuEvent`, on the event that `SDL_WaitEvent` delivered.  The
result is a `uint8_t`. -/
def u8x8_GetMenuEvent (k : U8x8Codes) (c : SdlCodes) (event : SDL_Event) : Nat :=
  if event.type = c.SDL_KEYDOWN then
    if event.sym = c.SDLK_UP then k.U8X8_MSG_GPIO_MENU_UP % 256
    else if event.sym = c.SDLK_DOWN then k.U8X8_MSG_GPIO_MENU_DOWN % 256
    else if event.sym = c.SDLK_LEFT then k.U8X8_MSG_GPIO_MENU_PREV % 256
    else if event.sym = c.SDLK_RIGHT then k.U8X8_MSG_GPIO_MENU_NEXT % 256
    else if event.sym = c.SDLK_RETURN then k.U8X8_MSG_GPIO_MENU_SELECT % 256
    else if event.sym = c.SDLK_ESCAPE then k.U8X8_MSG_GPIO_MENU_HOME % 256
    else 0
  else 0

/-! ## Message sequences -/

/-- One protocol message as the caller delivers it, with the library answers during it. -/
structure Message where
  env : SdlEnv
  msg : Nat
  arg_int : Nat
  bytes : List Nat
deriving DecidableEq, Repr

/-- The callback called on each message of a list in turn; the effects are concatenated. -/
def run (k : U8x8Codes) : List Message → u8g2emu_t → Except Fault (u8g2emu_t × List Effect)
  | [], s => .ok (s, [])
  | m :: ms, s =>
    match u8g2emu_msg_callback k m.env s m.msg m.arg_int m.bytes with
    | .error e => .error e
    | .ok o =>
      match run k ms o.session with
      | .error e => .error e
      | .ok (s1, fx) => .ok (s1, o.effects ++ fx)

/-! ## Vocabulary of the properties -/

/-- The pixel memory of the page surface (empty when there is no surface). -/
def u8g2emu_t.pixels (s : u8g2emu_t) : List Nat :=
  match s.page_surface with
  | some surf => surf.pixels
  | none => []

/-- An initialized session: the window exists and the page surface exists with its
128 x 8 bytes of pixel memory. -/
def Initialized (s : u8g2emu_t) : Prop :=
  s.window.isSome = true ∧ s.page_surface.map (fun surf => surf.pixels.length) = some 1024

instance (s : u8g2emu_t) : Decidable (Initialized s) := by
  unfold Initialized; infer_instance

/-- The payload holds every byte the handler of the message reads: 128 bytes for a
Byte-Send in data mode, `arg_int` bytes for a Byte-Send in command mode. -/
def PayloadReadable (k : U8x8Codes) (s : u8g2emu_t) (msg arg_int : Nat) (bytes : List Nat) :
    Prop :=
  msg = k.U8X8_MSG_BYTE_SEND →
    (s.data_enabled ≠ 0 → 128 ≤ bytes.length) ∧ (s.data_enabled = 0 → arg_int ≤ bytes.length)

/-- The page surface, when there is one, has 1024 bytes of pixel memory. -/
def SurfaceSized (s : u8g2emu_t) : Prop :=
  ∀ surf, s.page_surface = some surf → surf.pixels.length = 1024

/-- The sessions the program can be in: the zero-initialised global, and what any message
leaves behind when the callback returns. -/
inductive Reachable (k : U8x8Codes) : u8g2emu_t → Prop where
  | zero : Reachable k u8g2emu
  | step (s : u8g2emu_t) (env : SdlEnv) (msg arg_int : Nat) (bytes : List Nat) (o : Outcome) :
      Reachable k s → u8g2emu_msg_callback k env s msg arg_int bytes = .ok o →
      Reachable k o.session

/-- Is the effect a scaled blit? -/
def Effect.isBlit : Effect → Bool
  | .blitScaled _ _ => true
  | _ => false

/-- The page a 128-byte payload describes, as pixel memory: index `b * 128 + i` holds
bit `b` of byte `i`. -/
def pagePixels (bytes : List Nat) : List Nat :=
  (List.range 1024).map (fun idx => pixelValue (bytes.getD (idx % 128) 0) (idx / 128))

/-- The accesses of the inner loop for column `i`. -/
def columnAccesses (bytes : List Nat) (i : Nat) : List Access :=
  (List.range 8).flatMap (fun bit =>
    [Access.readByte i, Access.writePixel (bit * 128 + i) (pixelValue (bytes.getD i 0) bit)])

/-- The accesses of the two loops for a whole page. -/
def pageAccesses (bytes : List Nat) : List Access :=
  (List.range 128).flatMap (columnAccesses bytes)

/-- Writing page `p`: select command mode, send the set-page-address byte, select data
mode, send the page data. -/
def pageWrite (k : U8x8Codes) (env : SdlEnv) (p : Nat) (bytes : List Nat) : List Message :=
  [⟨env, k.U8X8_MSG_BYTE_SET_DC, 0, []⟩, ⟨env, k.U8X8_MSG_BYTE_SEND, 1, [0xb0 + p]⟩,
   ⟨env, k.U8X8_MSG_BYTE_SET_DC, 1, []⟩, ⟨env, k.U8X8_MSG_BYTE_SEND, 128, bytes⟩]

/-- Writing the pages of the list `ps` in turn; `env p` and `pages p` are the library
answers and the data for page `p`. -/
def pagesWrite (k : U8x8Codes) (env : Nat → SdlEnv) (pages : Nat → List Nat) (ps : List Nat) :
    List Message :=
  ps.flatMap (fun p => pageWrite k (env p) p (pages p))

/-- Library answers: everything succeeds. -/
def envAllOk : SdlEnv := ⟨true, true, true, true, true, true⟩

/-- Library answers: the window cannot be created. -/
def envNoWindow : SdlEnv := { envAllOk with createWindow := false }

/-- Library answers: the window is created, the page surface cannot be. -/
def envNoSurface : SdlEnv := { envAllOk with createSurface := false }

/-- A session with window and page surface, as `u8g2emu_Setup` leaves it on success. -/
def sessionReady : u8g2emu_t := (u8g2emu_Setup envAllOk u8g2emu).1

/-- The same session switched to data mode. -/
def sessionData : u8g2emu_t := { sessionReady with data_enabled := 1 }

/-- The ready session with the page cursor at 5. -/
def sessionPage5 : u8g2emu_t := { sessionReady with current_page := 5 }

/-- The zero-initialised session after Set-Data-Control(1) while no window can be made. -/
def sessionNoWindowData : u8g2emu_t := { u8g2emu with data_enabled := 1 }

/-- A page surface with every pixel on. -/
def litSurface : SDL_Surface :=
  { w := 128, h := 8, pixels := List.replicate 1024 1, palette := some paletteColors }

/-- The data-mode session with every pixel of the page surface on. -/
def sessionLit : u8g2emu_t := { sessionData with page_surface := some litSurface }

/-! ## The loops -/

theorem forUpTo_succ {σ : Type} (n : Nat) (body : Nat → σ → Except Fault σ) (s : σ) :
    forUpTo (n + 1) body s =
      match forUpTo n body s with
      | .error e => .error e
      | .ok s1 => body n s1 := rfl

/-- The loop is the left fold of its body over the indices `0, ..., n - 1`. -/
theorem forUpTo_eq_foldlM {σ : Type} (n : Nat) (body : Nat → σ → Except Fault σ) (s : σ) :
    forUpTo n body s = (List.range n).foldlM (fun st i => body i st) s := by
  induction n with
  | zero => rfl
  | succ n ih =>
    rw [forUpTo_succ, ih, List.range_succ, List.foldlM_append]
    cases (List.range n).foldlM (fun st i => body i st) s with
    | error e => rfl
    | ok s1 =>
      simp only [List.foldlM, bind, Except.bind, pure, Except.pure]
      cases body n s1 <;> rfl

theorem forUpTo_error_mono {σ : Type} (body : Nat → σ → Except Fault σ) (s : σ) (e : Fault)
    (n m : Nat) (hnm : n ≤ m) (h : forUpTo n body s = .error e) :
    forUpTo m body s = .error e := by
  induction m with
  | zero =>
    have : n = 0 := by omega
    subst this; exact h
  | succ m ih =>
    rcases Nat.lt_or_ge n (m + 1) with hlt | hge
    · rw [forUpTo_succ, ih (by omega)]
    · have : n = m + 1 := by omega
      subst this; exact h

theorem column_ok (bytes : List Nat) (i v : Nat) (hi : i < 128) (hv : bytes[i]? = some v)
    (n : Nat) (hn : n ≤ 8) (r : Raster) (hr : r.pixels.length = 1024) :
    ∃ r1, forUpTo n (fun bit r2 => storePixel bytes i bit r2) r = .ok r1 ∧
      r1.pixels.length = 1024 ∧
      (∀ idx, r1.pixels[idx]? =
        if idx < 1024 ∧ idx % 128 = i ∧ idx / 128 < n then some (pixelValue v (idx / 128))
        else r.pixels[idx]?) ∧
      r1.accesses = r.accesses ++ (List.range n).flatMap (fun bit =>
        [Access.readByte i, Access.writePixel (bit * 128 + i) (pixelValue v bit)]) := by
  induction n with
  | zero => exact ⟨r, rfl, hr, by simp, by simp⟩
  | succ n ih =>
    obtain ⟨r1, h1, hl, hp, ha⟩ := ih (by omega)
    have hb : n * 128 + i < r1.pixels.length := by omega
    refine ⟨_, by rw [forUpTo_succ, h1]; simp only [storePixel, hv, hb, if_true]; rfl, ?_, ?_, ?_⟩
    · simp [hl]
    · intro idx
      simp only [List.getElem?_set, hp]
      by_cases hidx : n * 128 + i = idx
      · subst hidx
        have h2 : (n * 128 + i) / 128 = n := by omega
        have h3 : (n * 128 + i) % 128 = i := by omega
        have hb2 : n * 128 + i < 1024 := by omega
        simp [hl, hb2, h2, h3]
      · have : ¬ (idx % 128 = i ∧ idx / 128 = n) := by omega
        simp only [hidx, if_false]
        by_cases hc : idx < 1024 ∧ idx % 128 = i ∧ idx / 128 < n
        · rw [if_pos hc, if_pos ⟨hc.1, hc.2.1, by omega⟩]
        · rw [if_neg hc, if_neg (by omega)]
    · simp [ha, List.range_succ, List.flatMap_append]


theorem columns_ok (bytes : List Nat) (n : Nat) (hn : n ≤ 128) (hlen : n ≤ bytes.length)
    (r : Raster) (hr : r.pixels.length = 1024) :
    ∃ r1, forUpTo n (fun i r1 => forUpTo 8 (fun bit r2 => storePixel bytes i bit r2) r1) r
        = .ok r1 ∧
      r1.pixels.length = 1024 ∧
      (∀ idx, r1.pixels[idx]? =
        if idx < 1024 ∧ idx % 128 < n
          then some (pixelValue (bytes.getD (idx % 128) 0) (idx / 128))
        else r.pixels[idx]?) ∧
      r1.accesses = r.accesses ++ (List.range n).flatMap (columnAccesses bytes) := by
  induction n with
  | zero => exact ⟨r, rfl, hr, by simp, by simp⟩
  | succ n ih =>
    obtain ⟨r1, h1, hl, hp, ha⟩ := ih (by omega) (by omega)
    have hv : bytes[n]? = some (bytes.getD n 0) := by
      rw [List.getD_eq_getElem?_getD, List.getElem?_eq_getElem (by omega)]; rfl
    obtain ⟨r2, h2, hl2, hp2, ha2⟩ :=
      column_ok bytes n (bytes.getD n 0) (by omega) hv 8 (le_refl 8) r1 hl
    refine ⟨r2, by rw [forUpTo_succ, h1]; exact h2, hl2, ?_, ?_⟩
    · intro idx
      rw [hp2, hp]
      by_cases h128 : idx % 128 = n
      · by_cases hlt : idx < 1024
        · have hd : idx / 128 < 8 := by omega
          rw [if_pos ⟨hlt, h128, hd⟩, if_pos ⟨hlt, by omega⟩, h128]
        · rw [if_neg (by omega), if_neg (by omega), if_neg (by omega)]
      · rw [if_neg (by omega)]
        by_cases hc : idx < 1024 ∧ idx % 128 < n
        · rw [if_pos hc, if_pos ⟨hc.1, by omega⟩]
        · rw [if_neg hc, if_neg (by omega)]
    · have key : (List.range (n + 1)).flatMap (columnAccesses bytes) =
          (List.range n).flatMap (columnAccesses bytes) ++ columnAccesses bytes n := by
        rw [List.range_succ, List.flatMap_append]; simp
      rw [ha2, ha, key, List.append_assoc]; rfl

theorem writePage_eq (bytes : List Nat) (hlen : 128 ≤ bytes.length) (r : Raster)
    (hr : r.pixels.length = 1024) :
    writePage bytes r = .ok ⟨pagePixels bytes, r.accesses ++ pageAccesses bytes⟩ := by
  obtain ⟨r1, h1, hl, hp, ha⟩ := columns_ok bytes 128 (le_refl _) hlen r hr
  have hpx : r1.pixels = pagePixels bytes := by
    apply List.ext_getElem?
    intro idx
    rw [hp]
    by_cases hlt : idx < 1024
    · rw [if_pos ⟨hlt, by omega⟩]
      simp [pagePixels, List.getElem?_map, List.getElem?_range hlt]
    · rw [if_neg (by omega)]
      rw [List.getElem?_eq_none (by omega), List.getElem?_eq_none (by simp [pagePixels]; omega)]
  rw [writePage, h1, ← hpx, pageAccesses, ← ha]

theorem writePage_short (bytes : List Nat) (hlen : bytes.length < 128) (r : Raster)
    (hr : r.pixels.length = 1024) :
    writePage bytes r = .error .payloadOutOfBounds := by
  obtain ⟨r1, h1, hl, _, _⟩ := columns_ok bytes bytes.length (by omega) (le_refl _) r hr
  apply forUpTo_error_mono _ _ _ (bytes.length + 1) 128 (by omega)
  rw [forUpTo_succ, h1]
  apply forUpTo_error_mono _ _ _ 1 8 (by omega)
  simp [forUpTo, storePixel]


theorem pixelValue_eq_testBit (byte bit : Nat) :
    pixelValue byte bit = if byte.testBit bit then 1 else 0 := by
  unfold pixelValue
  rw [Nat.one_shiftLeft, Nat.and_two_pow]
  cases h : byte.testBit bit <;> simp

theorem pagePixels_length (bytes : List Nat) : (pagePixels bytes).length = 1024 := by
  simp [pagePixels]

theorem pagePixels_get (bytes : List Nat) (i b : Nat) (hi : i < 128) (hb : b < 8) :
    (pagePixels bytes)[b * 128 + i]? = some (pixelValue (bytes.getD i 0) b) := by
  have h1 : b * 128 + i < 1024 := by omega
  have h2 : (b * 128 + i) % 128 = i := by omega
  have h3 : (b * 128 + i) / 128 = b := by omega
  simp [pagePixels, List.getElem?_map, List.getElem?_range h1, h2, h3]

theorem mem_columnAccesses_read (bytes : List Nat) (i j : Nat) :
    Access.readByte j ∈ columnAccesses bytes i ↔ j = i := by
  simp only [columnAccesses, List.mem_flatMap, List.mem_range, List.mem_cons,
    Access.readByte.injEq, List.mem_singleton, reduceCtorEq, or_false, List.not_mem_nil]
  constructor
  · rintro ⟨_, _, h⟩; exact h
  · intro h; exact ⟨0, by omega, h⟩

theorem mem_columnAccesses_write (bytes : List Nat) (i idx v : Nat) :
    Access.writePixel idx v ∈ columnAccesses bytes i ↔
      ∃ b, b < 8 ∧ idx = b * 128 + i ∧ v = pixelValue (bytes.getD i 0) b := by
  simp only [columnAccesses, List.mem_flatMap, List.mem_range, List.mem_cons,
    Access.writePixel.injEq, List.mem_singleton, reduceCtorEq, false_or, List.not_mem_nil,
    or_false]

theorem mem_pageAccesses_read (bytes : List Nat) (j : Nat) :
    Access.readByte j ∈ pageAccesses bytes ↔ j < 128 := by
  simp only [pageAccesses, List.mem_flatMap, List.mem_range, mem_columnAccesses_read]
  constructor
  · rintro ⟨i, hi, rfl⟩; exact hi
  · intro h; exact ⟨j, h, rfl⟩

theorem mem_pageAccesses_write (bytes : List Nat) (idx v : Nat) :
    Access.writePixel idx v ∈ pageAccesses bytes ↔
      ∃ i b, i < 128 ∧ b < 8 ∧ idx = b * 128 + i ∧ v = pixelValue (bytes.getD i 0) b := by
  simp only [pageAccesses, List.mem_flatMap, List.mem_range, mem_columnAccesses_write]
  constructor
  · rintro ⟨i, hi, b, hb, h1, h2⟩; exact ⟨i, b, hi, hb, h1, h2⟩
  · rintro ⟨i, b, hi, hb, h1, h2⟩; exact ⟨i, hi, b, hb, h1, h2⟩

/-! ## The callback on a session that has a window -/

theorem initialized_surface {s : u8g2emu_t} (h : Initialized s) :
    ∃ surf, s.page_surface = some surf ∧ surf.pixels.length = 1024 := by
  obtain ⟨_, h2⟩ := h
  cases hs : s.page_surface with
  | none => simp [hs] at h2
  | some surf => exact ⟨surf, rfl, by simpa [hs] using h2⟩

theorem initialized_window {s : u8g2emu_t} (h : Initialized s) :
    ∃ w, s.window = some w := by
  obtain ⟨h1, _⟩ := h
  cases hw : s.window with
  | none => simp [hw] at h1
  | some w => exact ⟨w, rfl⟩

/-- The effects of the data path after the pixel stores, for the library answers `env` and
the page cursor `cp`. -/
theorem sendData_ok (env : SdlEnv) (s : u8g2emu_t) (fx : List Effect) (bytes : List Nat)
    (surf : SDL_Surface) (w : SDL_Window) (hs : s.page_surface = some surf)
    (hl : surf.pixels.length = 1024) (hw : s.window = some w) (hlen : 128 ≤ bytes.length) :
    ∃ fx1, sendData env s fx bytes = .ok
        { session := { s with page_surface := some { surf with pixels := pagePixels bytes } }
          effects := fx ++ fx1
          accesses := pageAccesses bytes
          ret := 1 } ∧
      fx1.filter Effect.isBlit = [Effect.blitScaled env.convertSurface
        ⟨0, wrapInt32 (wrapInt32 (s.current_page * 8) * 2), 256, 16⟩] ∧
      fx1.count Effect.updateWindowSurface = (if s.current_page = 7 then 1 else 0) := by
  have hwp := writePage_eq bytes hlen { pixels := surf.pixels, accesses := [] } hl
  simp only [List.nil_append] at hwp
  refine ⟨[Effect.lockSurface, Effect.unlockSurface, Effect.getWindowSurface,
      Effect.convertSurface] ++
    (if env.convertSurface then [] else [Effect.diag Diag.convertSurface]) ++
    [Effect.getWindowSurface, Effect.blitScaled env.convertSurface
        ⟨0, wrapInt32 (wrapInt32 (s.current_page * 8) * 2), 256, 16⟩] ++
    (if (env.convertSurface && env.blitScaled) then [] else [Effect.diag Diag.blitError]) ++
    [Effect.freeSurface] ++
    (if s.current_page = 7 then [Effect.updateWindowSurface] else []), ?_, ?_, ?_⟩
  · simp only [sendData, hs, hwp, hw]
    cases env.convertSurface <;> cases env.blitScaled <;> by_cases h7 : s.current_page = 7 <;>
      simp [h7]
  · cases env.convertSurface <;> cases env.blitScaled <;> by_cases h7 : s.current_page = 7 <;>
      simp [h7, Effect.isBlit, List.filter]
  · cases env.convertSurface <;> cases env.blitScaled <;> by_cases h7 : s.current_page = 7 <;>
      simp [h7, List.count_cons]


/-! ## The command loop -/

theorem scan_total (bytes : List Nat) (n : Nat) (hn : n ≤ bytes.length) (c : CmdScan) :
    ∃ c1, forUpTo n (scanCommand bytes) c = .ok c1 ∧
      (c1.current_page = c.current_page ∨ (0 ≤ c1.current_page ∧ c1.current_page ≤ 7)) := by
  induction n with
  | zero => exact ⟨c, rfl, Or.inl rfl⟩
  | succ n ih =>
    obtain ⟨c1, h1, hp⟩ := ih (by omega)
    have hv : bytes[n]? = some bytes[n] := List.getElem?_eq_getElem (by omega)
    rw [forUpTo_succ, h1]
    simp only [scanCommand, hv]
    by_cases hr1 : 0xb0 ≤ bytes[n]
    · rw [if_pos hr1]
      by_cases hr2 : bytes[n] < 0xb8
      · rw [if_pos hr2]
        refine ⟨_, rfl, Or.inr ?_⟩
        simp only; omega
      · rw [if_neg hr2]
        exact ⟨_, rfl, hp⟩
    · rw [if_neg hr1]
      exact ⟨_, rfl, hp⟩

theorem scan_ok_page (bytes : List Nat) (n : Nat) (c c1 : CmdScan)
    (h : forUpTo n (scanCommand bytes) c = .ok c1) :
    c1.current_page = c.current_page ∨ (0 ≤ c1.current_page ∧ c1.current_page ≤ 7) := by
  rcases Nat.lt_or_ge bytes.length n with hlt | hge
  · exfalso
    obtain ⟨c2, h2, _⟩ := scan_total bytes bytes.length (le_refl _) c
    have herr : forUpTo n (scanCommand bytes) c = .error .payloadOutOfBounds := by
      apply forUpTo_error_mono _ _ _ (bytes.length + 1) n (by omega)
      rw [forUpTo_succ, h2]
      simp [scanCommand]
    rw [herr] at h
    cases h
  · obtain ⟨c2, h2, hp⟩ := scan_total bytes n hge c
    rw [h2] at h
    cases h
    exact hp

theorem scan_ignored (bytes : List Nat) (n : Nat) (c : CmdScan)
    (hout : ∀ i, i < n → ∃ v, bytes[i]? = some v ∧ ¬ (0xb0 ≤ v ∧ v ≤ 0xb7)) :
    ∃ acc, forUpTo n (scanCommand bytes) c = .ok { c with accesses := acc } := by
  induction n with
  | zero => exact ⟨c.accesses, rfl⟩
  | succ n ih =>
    obtain ⟨v, hv, hr⟩ := hout n (by omega)
    obtain ⟨acc, hacc⟩ := ih (fun i hi => hout i (by omega))
    rw [forUpTo_succ, hacc]
    simp only [scanCommand, hv]
    by_cases hr1 : 0xb0 ≤ v
    · have hr2 : ¬ v < 0xb8 := by omega
      rw [if_pos hr1, if_neg hr2]
      exact ⟨_, rfl⟩
    · rw [if_neg hr1]
      exact ⟨_, rfl⟩

/-! ## The callback, case by case -/

theorem codes_distinct (k : U8x8Codes) :
    k.U8X8_MSG_BYTE_SEND ≠ k.U8X8_MSG_BYTE_SET_DC ∧ k.U8X8_MSG_BYTE_SEND ≠ k.U8X8_MSG_BYTE_START_TRANSFER ∧
    k.U8X8_MSG_BYTE_SEND ≠ k.U8X8_MSG_BYTE_END_TRANSFER ∧
    k.U8X8_MSG_BYTE_SET_DC ≠ k.U8X8_MSG_BYTE_START_TRANSFER ∧
    k.U8X8_MSG_BYTE_SET_DC ≠ k.U8X8_MSG_BYTE_END_TRANSFER ∧
    k.U8X8_MSG_BYTE_START_TRANSFER ≠ k.U8X8_MSG_BYTE_END_TRANSFER := by
  have h := k.case_labels
  simp only [List.nodup_cons, List.mem_cons, List.mem_singleton, not_or, List.not_mem_nil,
    not_false_eq_true, List.nodup_nil, and_true] at h
  tauto

theorem callback_setDC (k : U8x8Codes) (env : SdlEnv) (s : u8g2emu_t) (arg : Nat)
    (bytes : List Nat) (hw : s.window.isSome = true) :
    u8g2emu_msg_callback k env s k.U8X8_MSG_BYTE_SET_DC arg bytes =
      .ok { session := { s with data_enabled := (arg : Int) }, effects := [], accesses := [],
            ret := 1 } := by
  have hne : k.U8X8_MSG_BYTE_SET_DC ≠ k.U8X8_MSG_BYTE_SEND := (codes_distinct k).1.symm
  have hn : s.window.isNone = false := by
    cases hwv : s.window <;> simp_all
  simp [u8g2emu_msg_callback, handleMessage, hn, hne]

theorem callback_other (k : U8x8Codes) (env : SdlEnv) (s : u8g2emu_t) (msg arg : Nat)
    (bytes : List Nat) (hw : s.window.isSome = true) (h1 : msg ≠ k.U8X8_MSG_BYTE_SEND)
    (h2 : msg ≠ k.U8X8_MSG_BYTE_SET_DC) :
    u8g2emu_msg_callback k env s msg arg bytes =
      .ok { session := s, effects := [], accesses := [], ret := 1 } := by
  have hn : s.window.isNone = false := by
    cases hwv : s.window <;> simp_all
  simp [u8g2emu_msg_callback, handleMessage, hn, h1, h2]

theorem callback_send_commands (k : U8x8Codes) (env : SdlEnv) (s : u8g2emu_t) (arg : Nat)
    (bytes : List Nat) (hw : s.window.isSome = true) (hd : s.data_enabled = 0) :
    u8g2emu_msg_callback k env s k.U8X8_MSG_BYTE_SEND arg bytes = sendCommands s [] arg bytes := by
  have hn : s.window.isNone = false := by
    cases hwv : s.window <;> simp_all
  simp [u8g2emu_msg_callback, handleMessage, hn, hd]

theorem callback_send_data (k : U8x8Codes) (env : SdlEnv) (s : u8g2emu_t) (arg : Nat)
    (bytes : List Nat) (hw : s.window.isSome = true) (hd : s.data_enabled ≠ 0) :
    u8g2emu_msg_callback k env s k.U8X8_MSG_BYTE_SEND arg bytes = sendData env s [] bytes := by
  have hn : s.window.isNone = false := by
    cases hwv : s.window <;> simp_all
  simp [u8g2emu_msg_callback, handleMessage, hn, hd]

/-! ## Byte-Send in data mode -/

theorem createIndex8Surface_length : (createIndex8Surface 128 8).pixels.length = 1024 := by
  rw [createIndex8Surface, List.length_replicate]

theorem sessionReady_initialized : Initialized sessionReady := by
  simp [Initialized, sessionReady, u8g2emu_Setup, envAllOk, u8g2emu,
    createIndex8Surface_length]

theorem sessionData_initialized : Initialized sessionData := by
  simp [Initialized, sessionData, sessionReady, u8g2emu_Setup, envAllOk, u8g2emu,
    createIndex8Surface_length]

theorem setup_fields (env : SdlEnv) (s : u8g2emu_t) :
    (u8g2emu_Setup env s).1.current_page = 0 ∧ (u8g2emu_Setup env s).1.data_enabled = 0 := by
  unfold u8g2emu_Setup
  cases env.createWindow <;> cases env.createSurface <;> cases env.setSurfacePalette <;> simp

theorem setup_initialized (env : SdlEnv) (s : u8g2emu_t) (hw : env.createWindow = true)
    (hs : env.createSurface = true) : Initialized (u8g2emu_Setup env s).1 := by
  unfold u8g2emu_Setup Initialized
  cases env.setSurfacePalette <;> simp [hw, hs, createIndex8Surface_length]

theorem callback_data (k : U8x8Codes) (env : SdlEnv) (s : u8g2emu_t) (arg : Nat)
    (bytes : List Nat) (hinit : Initialized s) (hd : s.data_enabled ≠ 0)
    (hlen : 128 ≤ bytes.length) :
    ∃ surf fx, s.page_surface = some surf ∧
      u8g2emu_msg_callback k env s k.U8X8_MSG_BYTE_SEND arg bytes = .ok
        { session := { s with page_surface := some { surf with pixels := pagePixels bytes } }
          effects := fx
          accesses := pageAccesses bytes
          ret := 1 } ∧
      fx.filter Effect.isBlit = [Effect.blitScaled env.convertSurface
        ⟨0, wrapInt32 (wrapInt32 (s.current_page * 8) * 2), 256, 16⟩] ∧
      fx.count Effect.updateWindowSurface = (if s.current_page = 7 then 1 else 0) := by
  obtain ⟨surf, hs, hl⟩ := initialized_surface hinit
  obtain ⟨w, hw⟩ := initialized_window hinit
  obtain ⟨fx1, h1, h2, h3⟩ := sendData_ok env s [] bytes surf w hs hl hw hlen
  refine ⟨surf, fx1, hs, ?_, h2, h3⟩
  rw [callback_send_data k env s arg bytes hinit.1 hd, h1]
  simp

/-- C1: for an initialized session in data mode and a payload of at least 128 bytes, the
callback handles a Byte-Send and leaves, for every column `i < 128` and bit `b < 8`, the
pixel at index `b * 128 + i` at 1 when bit `b` of payload byte `i` is set and at 0
otherwise. -/
theorem c1_data_send_sets_pixels (k : U8x8Codes) (env : SdlEnv) (s : u8g2emu_t) (arg : Nat)
    (bytes : List Nat) (hinit : Initialized s) (hdata : s.data_enabled ≠ 0)
    (hlen : 128 ≤ bytes.length) :
    ∃ o, u8g2emu_msg_callback k env s k.U8X8_MSG_BYTE_SEND arg bytes = .ok o ∧
      ∀ i b v, i < 128 → b < 8 → bytes[i]? = some v →
        o.session.pixels[b * 128 + i]? = some (if v.testBit b then 1 else 0) := by
  obtain ⟨surf, fx, _, h, _, _⟩ := callback_data k env s arg bytes hinit hdata hlen
  refine ⟨_, h, ?_⟩
  intro i b v hi hb hv
  have hg : bytes.getD i 0 = v := by
    rw [List.getD_eq_getElem?_getD, hv]; rfl
  simp only [u8g2emu_t.pixels]
  rw [pagePixels_get bytes i b hi hb, hg, pixelValue_eq_testBit]

theorem c1_data_send_sets_pixels_witness :
    Initialized sessionData ∧ sessionData.data_enabled ≠ 0 ∧
    128 ≤ (List.replicate 128 165).length ∧
    ∃ o, u8g2emu_msg_callback u8x8Codes envAllOk sessionData u8x8Codes.U8X8_MSG_BYTE_SEND 128
        (List.replicate 128 165) = .ok o ∧
      ∀ i b v, i < 128 → b < 8 → (List.replicate 128 165)[i]? = some v →
        o.session.pixels[b * 128 + i]? = some (if v.testBit b then 1 else 0) :=
  ⟨sessionData_initialized, by decide, by simp,
    c1_data_send_sets_pixels u8x8Codes envAllOk sessionData 128 (List.replicate 128 165)
      sessionData_initialized (by decide) (by simp)⟩

/-- C7: for initialized sessions in data mode and a payload of at least 128 bytes, handling
the same Byte-Send twice leaves the pixel buffer the first handling left, and the buffer
left from any other prior buffer content is the same one. -/
theorem c7_data_send_idempotent (k : U8x8Codes) (env1 env2 env3 : SdlEnv) (s t : u8g2emu_t)
    (arg : Nat) (bytes : List Nat) (hs : Initialized s) (hsd : s.data_enabled ≠ 0)
    (ht : Initialized t) (htd : t.data_enabled ≠ 0) (hlen : 128 ≤ bytes.length) :
    ∃ o1 o2 o3,
      u8g2emu_msg_callback k env1 s k.U8X8_MSG_BYTE_SEND arg bytes = .ok o1 ∧
      u8g2emu_msg_callback k env2 o1.session k.U8X8_MSG_BYTE_SEND arg bytes = .ok o2 ∧
      u8g2emu_msg_callback k env3 t k.U8X8_MSG_BYTE_SEND arg bytes = .ok o3 ∧
      o2.session.pixels = o1.session.pixels ∧ o3.session.pixels = o1.session.pixels := by
  obtain ⟨surf1, fx1, hp1, h1, _, _⟩ := callback_data k env1 s arg bytes hs hsd hlen
  obtain ⟨surf3, fx3, hp3, h3, _, _⟩ := callback_data k env3 t arg bytes ht htd hlen
  have hs2 : Initialized
      { s with page_surface := some { surf1 with pixels := pagePixels bytes } } := by
    refine ⟨hs.1, ?_⟩
    simp [pagePixels_length]
  obtain ⟨surf2, fx2, hp2, h2, _, _⟩ := callback_data k env2 _ arg bytes hs2 hsd hlen
  exact ⟨_, _, _, h1, h2, h3, rfl, rfl⟩


theorem callback_commands_ignored (k : U8x8Codes) (env : SdlEnv) (s : u8g2emu_t) (arg : Nat)
    (bytes : List Nat) (hw : s.window.isSome = true) (hcmd : s.data_enabled = 0)
    (hout : ∀ i, i < arg → ∃ v, bytes[i]? = some v ∧ ¬ (0xb0 ≤ v ∧ v ≤ 0xb7)) :
    ∃ acc, u8g2emu_msg_callback k env s k.U8X8_MSG_BYTE_SEND arg bytes = .ok
      { session := s, effects := [], accesses := acc, ret := 1 } := by
  obtain ⟨acc, hacc⟩ := scan_ignored bytes arg ⟨s.current_page, []⟩ hout
  exact ⟨acc, by rw [callback_send_commands k env s arg bytes hw hcmd, sendCommands, hacc]⟩

/-- C3: for an initialized session in command mode, a Byte-Send whose first `arg` payload
bytes all lie outside 0xB0..0xB7 is handled, leaves the whole session (page cursor, data
mode, pixel buffer) as it was and issues nothing, so no blit and no present. -/
theorem c3_other_command_bytes_ignored (k : U8x8Codes) (env : SdlEnv) (s : u8g2emu_t)
    (arg : Nat) (bytes : List Nat) (hinit : Initialized s) (hcmd : s.data_enabled = 0)
    (hout : ∀ i, i < arg → ∃ v, bytes[i]? = some v ∧ ¬ (0xb0 ≤ v ∧ v ≤ 0xb7)) :
    ∃ o, u8g2emu_msg_callback k env s k.U8X8_MSG_BYTE_SEND arg bytes = .ok o ∧
      o.session.current_page = s.current_page ∧ o.session.data_enabled = s.data_enabled ∧
      o.session.pixels = s.pixels ∧ o.session = s ∧ o.effects = [] ∧ o.ret = 1 := by
  obtain ⟨acc, h⟩ := callback_commands_ignored k env s arg bytes hinit.1 hcmd hout
  exact ⟨_, h, rfl, rfl, rfl, rfl, rfl, rfl⟩

theorem c3_other_command_bytes_ignored_witness :
    Initialized sessionReady ∧ sessionReady.data_enabled = 0 ∧
    (∀ i, i < 3 → ∃ v, [0xaf, 0xb8, 0x40][i]? = some v ∧ ¬ (0xb0 ≤ v ∧ v ≤ 0xb7)) ∧
    ∃ o, u8g2emu_msg_callback u8x8Codes envAllOk sessionReady u8x8Codes.U8X8_MSG_BYTE_SEND 3
        [0xaf, 0xb8, 0x40] = .ok o ∧
      o.session.current_page = sessionReady.current_page ∧
      o.session.data_enabled = sessionReady.data_enabled ∧
      o.session.pixels = sessionReady.pixels ∧ o.session = sessionReady ∧ o.effects = [] ∧
      o.ret = 1 :=
  ⟨sessionReady_initialized, by decide, by decide,
    c3_other_command_bytes_ignored u8x8Codes envAllOk sessionReady 3 [0xaf, 0xb8, 0x40]
      sessionReady_initialized (by decide) (by decide)⟩

theorem callback_set_page (k : U8x8Codes) (env : SdlEnv) (s : u8g2emu_t) (p : Nat)
    (hw : s.window.isSome = true) (hcmd : s.data_enabled = 0) (hp : p ≤ 7) :
    u8g2emu_msg_callback k env s k.U8X8_MSG_BYTE_SEND 1 [0xb0 + p] = .ok
      { session := { s with current_page := (p : Int) }, effects := [],
        accesses := [Access.readByte 0, Access.readByte 0, Access.readByte 0], ret := 1 } := by
  rw [callback_send_commands k env s 1 _ hw hcmd]
  have h1 : 176 ≤ 176 + p ∧ 176 + p < 184 := by omega
  simp [sendCommands, forUpTo, scanCommand, h1]

theorem wrap_band (p : Nat) (hp : p ≤ 7) :
    wrapInt32 (wrapInt32 ((p : Int) * 8) * 2) = 16 * (p : Int) := by
  unfold wrapInt32
  omega

/-- The four messages that write page `p`, one after the other, on an initialized session. -/
theorem page_cycle (k : U8x8Codes) (e1 e2 e3 e4 : SdlEnv) (s : u8g2emu_t) (p arg : Nat)
    (b1 b3 bytes : List Nat) (hinit : Initialized s) (hp : p ≤ 7)
    (hlen : 128 ≤ bytes.length) :
    ∃ o4,
      u8g2emu_msg_callback k e1 s k.U8X8_MSG_BYTE_SET_DC 0 b1 = .ok
        { session := { s with data_enabled := 0 }, effects := [], accesses := [], ret := 1 } ∧
      u8g2emu_msg_callback k e2 { s with data_enabled := 0 } k.U8X8_MSG_BYTE_SEND 1 [0xb0 + p] = .ok
        { session := { s with data_enabled := 0, current_page := (p : Int) }, effects := [],
          accesses := [Access.readByte 0, Access.readByte 0, Access.readByte 0], ret := 1 } ∧
      u8g2emu_msg_callback k e3 { s with data_enabled := 0, current_page := (p : Int) }
        k.U8X8_MSG_BYTE_SET_DC 1 b3 = .ok
        { session := { s with data_enabled := 1, current_page := (p : Int) }, effects := [],
          accesses := [], ret := 1 } ∧
      u8g2emu_msg_callback k e4 { s with data_enabled := 1, current_page := (p : Int) }
        k.U8X8_MSG_BYTE_SEND arg bytes = .ok o4 ∧
      Initialized o4.session ∧ o4.session.current_page = (p : Int) ∧
      o4.session.pixels = pagePixels bytes ∧
      o4.effects.filter Effect.isBlit =
        [Effect.blitScaled e4.convertSurface ⟨0, 16 * (p : Int), 256, 16⟩] ∧
      o4.effects.count Effect.updateWindowSurface = (if p = 7 then 1 else 0) := by
  have hi3 : Initialized { s with data_enabled := 1, current_page := (p : Int) } := hinit
  obtain ⟨surf, fx, hs, h4, hb, hc⟩ :=
    callback_data k e4 { s with data_enabled := 1, current_page := (p : Int) } arg bytes hi3
      (by simp) hlen
  refine ⟨_, callback_setDC k e1 s 0 b1 hinit.1, callback_set_page k e2 _ p hinit.1 rfl hp,
    callback_setDC k e3 _ 1 b3 hinit.1, h4, ?_, rfl, ?_, ?_, ?_⟩
  · exact ⟨hinit.1, by simp [pagePixels_length]⟩
  · simp [u8g2emu_t.pixels]
  · rw [hb]; simp only [wrap_band p hp]
  · rw [hc]; simp only [Nat.cast_eq_ofNat, Nat.cast_inj]
    by_cases h7 : p = 7
    · subst h7; simp
    · have : (p : Int) ≠ 7 := by omega
      simp [h7, this]


/-- C2: from any initialized session and for any page `p` in 0..7, the messages
Set-Data-Control(0), Byte-Send(1, [0xB0 + p]), Set-Data-Control(1), Byte-Send with a 128-byte
payload are all handled, leave `current_page = p`, and the effects of the last one hold
exactly one scaled blit, to the rectangle x = 0, y = 16 * p, w = 256, h = 16; the first three
issue no blit. -/
theorem c2_page_select_targets_band (k : U8x8Codes) (e1 e2 e3 e4 : SdlEnv) (s : u8g2emu_t)
    (p arg : Nat) (b1 b3 bytes : List Nat) (hinit : Initialized s) (hp : p ≤ 7)
    (hlen : bytes.length = 128) :
    ∃ o1 o2 o3 o4,
      u8g2emu_msg_callback k e1 s k.U8X8_MSG_BYTE_SET_DC 0 b1 = .ok o1 ∧
      u8g2emu_msg_callback k e2 o1.session k.U8X8_MSG_BYTE_SEND 1 [0xb0 + p] = .ok o2 ∧
      u8g2emu_msg_callback k e3 o2.session k.U8X8_MSG_BYTE_SET_DC 1 b3 = .ok o3 ∧
      u8g2emu_msg_callback k e4 o3.session k.U8X8_MSG_BYTE_SEND arg bytes = .ok o4 ∧
      o4.session.current_page = (p : Int) ∧
      o4.effects.filter Effect.isBlit =
        [Effect.blitScaled e4.convertSurface ⟨0, 16 * (p : Int), 256, 16⟩] ∧
      (o1.effects ++ o2.effects ++ o3.effects).filter Effect.isBlit = [] := by
  obtain ⟨o4, h1, h2, h3, h4, _, hpg, _, hb, _⟩ :=
    page_cycle k e1 e2 e3 e4 s p arg b1 b3 bytes hinit hp (by omega)
  exact ⟨_, _, _, o4, h1, h2, h3, h4, hpg, hb, rfl⟩

theorem c2_page_select_targets_band_witness :
    Initialized sessionReady ∧ 3 ≤ 7 ∧ (List.replicate 128 1).length = 128 ∧
    ∃ o1 o2 o3 o4,
      u8g2emu_msg_callback u8x8Codes envAllOk sessionReady u8x8Codes.U8X8_MSG_BYTE_SET_DC 0 []
        = .ok o1 ∧
      u8g2emu_msg_callback u8x8Codes envAllOk o1.session u8x8Codes.U8X8_MSG_BYTE_SEND 1 [0xb0 + 3]
        = .ok o2 ∧
      u8g2emu_msg_callback u8x8Codes envAllOk o2.session u8x8Codes.U8X8_MSG_BYTE_SET_DC 1 []
        = .ok o3 ∧
      u8g2emu_msg_callback u8x8Codes envAllOk o3.session u8x8Codes.U8X8_MSG_BYTE_SEND 128
        (List.replicate 128 1) = .ok o4 ∧
      o4.session.current_page = ((3 : Nat) : Int) ∧
      o4.effects.filter Effect.isBlit =
        [Effect.blitScaled envAllOk.convertSurface ⟨0, 16 * ((3 : Nat) : Int), 256, 16⟩] ∧
      (o1.effects ++ o2.effects ++ o3.effects).filter Effect.isBlit = [] :=
  ⟨sessionReady_initialized, by decide, by simp,
    c2_page_select_targets_band u8x8Codes envAllOk envAllOk envAllOk envAllOk sessionReady 3 128
      [] [] (List.replicate 128 1) sessionReady_initialized (by decide) (by simp)⟩

/-! ## Runs of several messages -/

theorem run_append (k : U8x8Codes) (ms1 ms2 : List Message) (s : u8g2emu_t) :
    run k (ms1 ++ ms2) s =
      match run k ms1 s with
      | .error e => .error e
      | .ok (s1, fx1) =>
        match run k ms2 s1 with
        | .error e => .error e
        | .ok (s2, fx2) => .ok (s2, fx1 ++ fx2) := by
  induction ms1 generalizing s with
  | nil =>
    simp only [List.nil_append, run]
    cases run k ms2 s with
    | error e => rfl
    | ok r => rfl
  | cons m ms ih =>
    simp only [List.cons_append, run]
    cases u8g2emu_msg_callback k m.env s m.msg m.arg_int m.bytes with
    | error e => rfl
    | ok o =>
      simp only []
      rw [show ms.append ms2 = ms ++ ms2 from rfl, ih o.session]
      cases run k ms o.session with
      | error e => rfl
      | ok r =>
        obtain ⟨s1, fx1⟩ := r
        simp only
        cases run k ms2 s1 with
        | error e => rfl
        | ok r2 => simp

theorem pageWrite_run (k : U8x8Codes) (env : SdlEnv) (s : u8g2emu_t) (p : Nat)
    (bytes : List Nat) (hinit : Initialized s) (hp : p ≤ 7) (hlen : 128 ≤ bytes.length) :
    ∃ s1 fx, run k (pageWrite k env p bytes) s = .ok (s1, fx) ∧ Initialized s1 ∧
      fx.count Effect.updateWindowSurface = (if p = 7 then 1 else 0) := by
  obtain ⟨o4, h1, h2, h3, h4, hi, _, _, _, hc⟩ :=
    page_cycle k env env env env s p 128 [] [] bytes hinit hp hlen
  refine ⟨o4.session, o4.effects, ?_, hi, hc⟩
  simp [pageWrite, run, h1, h2, h3, h4]

theorem pagesWrite_run (k : U8x8Codes) (env : Nat → SdlEnv) (pages : Nat → List Nat)
    (ps : List Nat) (s : u8g2emu_t) (hinit : Initialized s) (hp : ∀ p ∈ ps, p ≤ 7)
    (hlen : ∀ p ∈ ps, 128 ≤ (pages p).length) :
    ∃ s1 fx, run k (pagesWrite k env pages ps) s = .ok (s1, fx) ∧ Initialized s1 ∧
      fx.count Effect.updateWindowSurface = ps.count 7 := by
  induction ps generalizing s with
  | nil => exact ⟨s, [], rfl, hinit, rfl⟩
  | cons p ps ih =>
    obtain ⟨s1, fx1, h1, hi1, hc1⟩ :=
      pageWrite_run k (env p) s p (pages p) hinit (hp p (List.mem_cons_self _ _))
        (hlen p (List.mem_cons_self _ _))
    obtain ⟨s2, fx2, h2, hi2, hc2⟩ :=
      ih s1 hi1 (fun q hq => hp q (List.mem_cons_of_mem _ hq))
        (fun q hq => hlen q (List.mem_cons_of_mem _ hq))
    refine ⟨s2, fx1 ++ fx2, ?_, hi2, ?_⟩
    · simp only [pagesWrite, List.flatMap_cons] at h2 ⊢
      rw [run_append, h1]
      simp only [h2]
    · rw [List.count_append, hc1, hc2, List.count_cons]
      by_cases h7 : p = 7 <;> simp [h7, Nat.add_comm]

/-! ## What every handled message preserves -/

theorem sendData_frame (env : SdlEnv) (s : u8g2emu_t) (fx : List Effect) (bytes : List Nat)
    (o : Outcome) (h : sendData env s fx bytes = .ok o) :
    o.session.current_page = s.current_page ∧ o.session.data_enabled = s.data_enabled ∧
      o.ret = 1 := by
  unfold sendData at h
  split at h
  · cases h
  · split at h
    · cases h
    · cases hw : s.window with
      | none => simp [hw] at h
      | some w =>
        simp only [hw, Except.ok.injEq] at h
        subst h
        exact ⟨rfl, rfl, rfl⟩

theorem sendCommands_frame (s : u8g2emu_t) (fx : List Effect) (arg : Nat) (bytes : List Nat)
    (o : Outcome) (h : sendCommands s fx arg bytes = .ok o) :
    (o.session.current_page = s.current_page ∨
        (0 ≤ o.session.current_page ∧ o.session.current_page ≤ 7)) ∧
      o.session.data_enabled = s.data_enabled ∧ o.effects = fx ∧ o.ret = 1 := by
  unfold sendCommands at h
  split at h
  · cases h
  · rename_i c hc
    simp only [Except.ok.injEq] at h
    subst h
    exact ⟨scan_ok_page bytes arg _ c hc, rfl, rfl, rfl⟩

theorem sendCommands_total (s : u8g2emu_t) (fx : List Effect) (arg : Nat) (bytes : List Nat)
    (hlen : arg ≤ bytes.length) : ∃ o, sendCommands s fx arg bytes = .ok o := by
  obtain ⟨c1, h1, _⟩ := scan_total bytes arg hlen ⟨s.current_page, []⟩
  exact ⟨_, by rw [sendCommands, h1]⟩

theorem handleMessage_frame (k : U8x8Codes) (env : SdlEnv) (s : u8g2emu_t) (fx : List Effect)
    (msg arg : Nat) (bytes : List Nat) (o : Outcome)
    (h : handleMessage k env s fx msg arg bytes = .ok o) :
    (o.session.current_page = s.current_page ∨
        (0 ≤ o.session.current_page ∧ o.session.current_page ≤ 7)) ∧
      (msg ≠ k.U8X8_MSG_BYTE_SET_DC → o.session.data_enabled = s.data_enabled) ∧
      (msg = k.U8X8_MSG_BYTE_SET_DC → o.session.data_enabled = (arg : Int)) ∧
      o.ret = 1 := by
  have hne := (codes_distinct k).1
  unfold handleMessage at h
  by_cases h1 : msg = k.U8X8_MSG_BYTE_SEND
  · rw [if_pos h1] at h
    have h2 : msg ≠ k.U8X8_MSG_BYTE_SET_DC := by rw [h1]; exact hne
    by_cases hd : s.data_enabled ≠ 0
    · rw [if_pos hd] at h
      obtain ⟨a, b, c⟩ := sendData_frame env s fx bytes o h
      exact ⟨Or.inl a, fun _ => b, fun hx => absurd hx h2, c⟩
    · rw [if_neg hd] at h
      obtain ⟨a, b, _, c⟩ := sendCommands_frame s fx arg bytes o h
      exact ⟨a, fun _ => b, fun hx => absurd hx h2, c⟩
  · rw [if_neg h1] at h
    by_cases h2 : msg = k.U8X8_MSG_BYTE_SET_DC
    · rw [if_pos h2] at h
      simp only [Except.ok.injEq] at h
      subst h
      exact ⟨Or.inl rfl, fun hx => absurd h2 hx, fun _ => rfl, rfl⟩
    · rw [if_neg h2] at h
      simp only [ite_self, Except.ok.injEq] at h
      subst h
      exact ⟨Or.inl rfl, fun _ => rfl, fun hx => absurd hx h2, rfl⟩

theorem callback_cases (k : U8x8Codes) (env : SdlEnv) (s : u8g2emu_t) (msg arg : Nat)
    (bytes : List Nat) :
    (s.window.isSome = true ∧
      u8g2emu_msg_callback k env s msg arg bytes = handleMessage k env s [] msg arg bytes) ∨
    (s.window = none ∧
      u8g2emu_msg_callback k env s msg arg bytes =
        handleMessage k env (u8g2emu_Setup env s).1 (u8g2emu_Setup env s).2.1 msg arg bytes) := by
  cases hw : s.window with
  | none => right; simp [u8g2emu_msg_callback, hw]
  | some w => left; simp [u8g2emu_msg_callback, hw]

theorem callback_page_valid (k : U8x8Codes) (env : SdlEnv) (s : u8g2emu_t) (msg arg : Nat)
    (bytes : List Nat) (o : Outcome) (h : u8g2emu_msg_callback k env s msg arg bytes = .ok o)
    (hs : 0 ≤ s.current_page ∧ s.current_page ≤ 7) :
    0 ≤ o.session.current_page ∧ o.session.current_page ≤ 7 := by
  rcases callback_cases k env s msg arg bytes with ⟨_, hc⟩ | ⟨_, hc⟩
  · rw [hc] at h
    rcases (handleMessage_frame k env s [] msg arg bytes o h).1 with he | hr
    · rw [he]; exact hs
    · exact hr
  · rw [hc] at h
    rcases (handleMessage_frame k env _ _ msg arg bytes o h).1 with he | hr
    · rw [he, (setup_fields env s).1]; decide
    · exact hr

/-- C5: in every session reachable from the zero-initialised one by handled messages (any
kind, any argument, any payload, any library answers), `current_page` is between 0 and 7. -/
theorem c5_current_page_valid (k : U8x8Codes) (s : u8g2emu_t) (h : Reachable k s) :
    0 ≤ s.current_page ∧ s.current_page ≤ 7 := by
  induction h with
  | zero => decide
  | step s env msg arg bytes o _ hcb ih => exact callback_page_valid k env s msg arg bytes o hcb ih


theorem sessionPage5_reachable : Reachable u8x8Codes sessionPage5 := by
  have h : ∃ o, u8g2emu_msg_callback u8x8Codes envAllOk u8g2emu u8x8Codes.U8X8_MSG_BYTE_SEND 1
      [0xb5] = .ok o ∧ o.session = sessionPage5 := ⟨_, rfl, rfl⟩
  obtain ⟨o, h1, h2⟩ := h
  rw [← h2]
  exact Reachable.step u8g2emu envAllOk _ 1 [0xb5] o Reachable.zero h1

theorem c5_current_page_valid_witness :
    Reachable u8x8Codes sessionPage5 ∧
    0 ≤ sessionPage5.current_page ∧ sessionPage5.current_page ≤ 7 :=
  ⟨sessionPage5_reachable, c5_current_page_valid u8x8Codes sessionPage5 sessionPage5_reachable⟩

theorem callback_total (k : U8x8Codes) (env : SdlEnv) (s : u8g2emu_t) (msg arg : Nat)
    (bytes : List Nat) (hinit : Initialized s) (hread : PayloadReadable k s msg arg bytes) :
    ∃ o, u8g2emu_msg_callback k env s msg arg bytes = .ok o ∧
      o.effects.count Effect.updateWindowSurface =
        (if msg = k.U8X8_MSG_BYTE_SEND ∧ s.data_enabled ≠ 0 ∧ s.current_page = 7 then 1 else 0) := by
  by_cases h1 : msg = k.U8X8_MSG_BYTE_SEND
  · subst h1
    by_cases hd : s.data_enabled ≠ 0
    · obtain ⟨surf, fx, _, h, _, hc⟩ :=
        callback_data k env s arg bytes hinit hd ((hread rfl).1 hd)
      refine ⟨_, h, ?_⟩
      simp only [hc, hd, ne_eq, not_false_eq_true, true_and]
    · have hd0 : s.data_enabled = 0 := by simpa using hd
      obtain ⟨o, ho⟩ := sendCommands_total s [] arg bytes ((hread rfl).2 hd0)
      refine ⟨o, by rw [callback_send_commands k env s arg bytes hinit.1 hd0, ho], ?_⟩
      rw [(sendCommands_frame s [] arg bytes o ho).2.2.1]
      simp [hd0]
  · by_cases h2 : msg = k.U8X8_MSG_BYTE_SET_DC
    · subst h2
      exact ⟨_, callback_setDC k env s arg bytes hinit.1, by simp [h1]⟩
    · exact ⟨_, callback_other k env s msg arg bytes hinit.1 h1 h2, by simp [h1]⟩

/-- C4: on an initialized session, a message whose payload holds the bytes its handler reads
is handled, and a full-window present is among the effects exactly when the message is a
Byte-Send, the session is in data mode and `current_page` is 7; it is then issued once.
So writing the pages 0..7 once each, in any order, presents exactly once. -/
theorem c4_present_only_on_page_seven (k : U8x8Codes) (env : SdlEnv) (s : u8g2emu_t)
    (msg arg : Nat) (bytes : List Nat) (hinit : Initialized s)
    (hread : PayloadReadable k s msg arg bytes) :
    (∃ o, u8g2emu_msg_callback k env s msg arg bytes = .ok o ∧
      (Effect.updateWindowSurface ∈ o.effects ↔
        (msg = k.U8X8_MSG_BYTE_SEND ∧ s.data_enabled ≠ 0 ∧ s.current_page = 7)) ∧
      o.effects.count Effect.updateWindowSurface ≤ 1) ∧
    (∀ (envs : Nat → SdlEnv) (pages : Nat → List Nat) (ps : List Nat),
      ps.Perm (List.range 8) → (∀ p, p < 8 → 128 ≤ (pages p).length) →
      ∃ s1 fx, run k (pagesWrite k envs pages ps) s = .ok (s1, fx) ∧
        fx.count Effect.updateWindowSurface = 1) := by
  constructor
  · obtain ⟨o, h, hc⟩ := callback_total k env s msg arg bytes hinit hread
    refine ⟨o, h, ?_, ?_⟩
    · rw [← List.count_pos_iff, hc]
      by_cases hq : msg = k.U8X8_MSG_BYTE_SEND ∧ s.data_enabled ≠ 0 ∧ s.current_page = 7
      · simp [hq]
      · simp [hq]
    · rw [hc]; split <;> omega
  · intro envs pages ps hperm hlen
    have hmem : ∀ p ∈ ps, p < 8 := fun p hp => List.mem_range.mp (hperm.mem_iff.mp hp)
    obtain ⟨s1, fx, h, _, hc⟩ :=
      pagesWrite_run k envs pages ps s hinit (fun p hp => by have := hmem p hp; omega)
        (fun p hp => hlen p (hmem p hp))
    refine ⟨s1, fx, h, ?_⟩
    rw [hc, hperm.count_eq]
    decide

theorem c4_present_only_on_page_seven_witness :
    Initialized { sessionData with current_page := 7 } ∧
    PayloadReadable u8x8Codes { sessionData with current_page := 7 } u8x8Codes.U8X8_MSG_BYTE_SEND 128
      (List.replicate 128 0) ∧
    (∃ o, u8g2emu_msg_callback u8x8Codes envAllOk { sessionData with current_page := 7 }
        u8x8Codes.U8X8_MSG_BYTE_SEND 128 (List.replicate 128 0) = .ok o ∧
      (Effect.updateWindowSurface ∈ o.effects ↔
        (u8x8Codes.U8X8_MSG_BYTE_SEND = u8x8Codes.U8X8_MSG_BYTE_SEND ∧
          ({ sessionData with current_page := 7 } : u8g2emu_t).data_enabled ≠ 0 ∧
          ({ sessionData with current_page := 7 } : u8g2emu_t).current_page = 7)) ∧
      o.effects.count Effect.updateWindowSurface ≤ 1) ∧
    (∀ (envs : Nat → SdlEnv) (pages : Nat → List Nat) (ps : List Nat),
      ps.Perm (List.range 8) → (∀ p, p < 8 → 128 ≤ (pages p).length) →
      ∃ s1 fx, run u8x8Codes (pagesWrite u8x8Codes envs pages ps)
          { sessionData with current_page := 7 } = .ok (s1, fx) ∧
        fx.count Effect.updateWindowSurface = 1) :=
  ⟨sessionData_initialized, fun _ => ⟨fun _ => by simp, fun h => absurd h (by decide)⟩,
    c4_present_only_on_page_seven u8x8Codes envAllOk { sessionData with current_page := 7 }
      u8x8Codes.U8X8_MSG_BYTE_SEND 128 (List.replicate 128 0) sessionData_initialized
      (fun _ => ⟨fun _ => by simp, fun h => absurd h (by decide)⟩)⟩


/-- C6, as stated, fails: after Set-Data-Control(1) on the zero-initialised session while the
window cannot be created, the session has `data_enabled = 1` and no window; the next
Start-Transfer message runs `u8g2emu_Setup` again and leaves `data_enabled = 0`. -/
theorem c6_counterexample :
    (∃ o, u8g2emu_msg_callback u8x8Codes envNoWindow u8g2emu u8x8Codes.U8X8_MSG_BYTE_SET_DC 1 []
        = .ok o ∧ o.session = sessionNoWindowData) ∧
    sessionNoWindowData.data_enabled = 1 ∧
    ∃ o, u8g2emu_msg_callback u8x8Codes envNoWindow sessionNoWindowData
        u8x8Codes.U8X8_MSG_BYTE_START_TRANSFER 0 [] = .ok o ∧
      o.session.data_enabled = 0 ∧ o.session.data_enabled ≠ sessionNoWindowData.data_enabled :=
  ⟨⟨_, rfl, rfl⟩, rfl, _, rfl, rfl, by decide⟩

/-- C6, amended: on a session whose window exists, Set-Data-Control(arg) sets `data_enabled`
to `arg`, changes nothing else and issues nothing, and any other message that is handled
leaves `data_enabled` as it was; on an initialized session every message with a readable
payload is handled.  On a session without a window the callback first runs `u8g2emu_Setup`,
which resets `data_enabled` to 0: Set-Data-Control(arg) ends with `data_enabled = arg`, any
other message ends with `data_enabled = 0`. -/
theorem c6_set_dc_frame (k : U8x8Codes) (env : SdlEnv) (s : u8g2emu_t) (arg : Nat)
    (bytes : List Nat) (hw : s.window.isSome = true) :
    u8g2emu_msg_callback k env s k.U8X8_MSG_BYTE_SET_DC arg bytes =
      .ok { session := { s with data_enabled := (arg : Int) }, effects := [], accesses := [],
            ret := 1 } ∧
    (∀ msg o, msg ≠ k.U8X8_MSG_BYTE_SET_DC → u8g2emu_msg_callback k env s msg arg bytes = .ok o →
      o.session.data_enabled = s.data_enabled) ∧
    (∀ msg, Initialized s → PayloadReadable k s msg arg bytes →
      ∃ o, u8g2emu_msg_callback k env s msg arg bytes = .ok o) ∧
    (∀ (t : u8g2emu_t) msg, t.window = none → (msg = k.U8X8_MSG_BYTE_SEND → arg ≤ bytes.length) →
      ∃ o, u8g2emu_msg_callback k env t msg arg bytes = .ok o ∧
        o.session.data_enabled = if msg = k.U8X8_MSG_BYTE_SET_DC then (arg : Int) else 0) := by
  refine ⟨callback_setDC k env s arg bytes hw, ?_, ?_, ?_⟩
  · intro msg o hne h
    rcases callback_cases k env s msg arg bytes with ⟨_, hc⟩ | ⟨hn, _⟩
    · rw [hc] at h
      exact (handleMessage_frame k env s [] msg arg bytes o h).2.1 hne
    · rw [hn] at hw; cases hw
  · intro msg hinit hread
    obtain ⟨o, h, _⟩ := callback_total k env s msg arg bytes hinit hread
    exact ⟨o, h⟩
  · intro t msg ht hlen
    rcases callback_cases k env t msg arg bytes with ⟨hs, _⟩ | ⟨_, hc⟩
    · rw [ht] at hs; cases hs
    · have hd := (setup_fields env t).2
      have hex : ∃ o, handleMessage k env (u8g2emu_Setup env t).1 (u8g2emu_Setup env t).2.1
          msg arg bytes = .ok o := by
        unfold handleMessage
        by_cases h1 : msg = k.U8X8_MSG_BYTE_SEND
        · rw [if_pos h1, if_neg (by simp [hd])]
          exact sendCommands_total _ _ arg bytes (hlen h1)
        · rw [if_neg h1]
          by_cases h2 : msg = k.U8X8_MSG_BYTE_SET_DC
          · rw [if_pos h2]; exact ⟨_, rfl⟩
          · rw [if_neg h2]; simp only [ite_self]; exact ⟨_, rfl⟩
      obtain ⟨o, ho⟩ := hex
      refine ⟨o, by rw [hc, ho], ?_⟩
      obtain ⟨_, f1, f2, _⟩ := handleMessage_frame k env _ _ msg arg bytes o ho
      by_cases h2 : msg = k.U8X8_MSG_BYTE_SET_DC
      · rw [if_pos h2]; exact f2 h2
      · rw [if_neg h2, f1 h2, hd]

theorem c6_set_dc_frame_witness :
    sessionReady.window.isSome = true ∧
    (u8g2emu_msg_callback u8x8Codes envAllOk sessionReady u8x8Codes.U8X8_MSG_BYTE_SET_DC 1 [] =
      .ok { session := { sessionReady with data_enabled := ((1 : Nat) : Int) }, effects := [],
            accesses := [], ret := 1 } ∧
    (∀ msg o, msg ≠ u8x8Codes.U8X8_MSG_BYTE_SET_DC →
      u8g2emu_msg_callback u8x8Codes envAllOk sessionReady msg 1 [] = .ok o →
      o.session.data_enabled = sessionReady.data_enabled) ∧
    (∀ msg, Initialized sessionReady → PayloadReadable u8x8Codes sessionReady msg 1 [] →
      ∃ o, u8g2emu_msg_callback u8x8Codes envAllOk sessionReady msg 1 [] = .ok o) ∧
    (∀ (t : u8g2emu_t) msg, t.window = none →
      (msg = u8x8Codes.U8X8_MSG_BYTE_SEND → 1 ≤ ([] : List Nat).length) →
      ∃ o, u8g2emu_msg_callback u8x8Codes envAllOk t msg 1 [] = .ok o ∧
        o.session.data_enabled =
          if msg = u8x8Codes.U8X8_MSG_BYTE_SET_DC then ((1 : Nat) : Int) else 0)) :=
  ⟨sessionReady_initialized.1,
    c6_set_dc_frame u8x8Codes envAllOk sessionReady 1 [] sessionReady_initialized.1⟩

/-- C8: for the event the wait delivered, `u8x8_GetMenuEvent` returns one of the seven
signals; it returns Up, Down, Previous, Next, Select, Home for a key-press of the Up-arrow,
Down-arrow, Left-arrow, Right-arrow, Enter, Escape key respectively, and None (0) for every
other event: an event that is not a key-press, or a key-press of another key. -/
theorem c8_menu_event_mapping (k : U8x8Codes) (c : SdlCodes) (event : SDL_Event) :
    u8x8_GetMenuEvent k c event ∈
      [k.U8X8_MSG_GPIO_MENU_UP % 256, k.U8X8_MSG_GPIO_MENU_DOWN % 256, k.U8X8_MSG_GPIO_MENU_PREV % 256,
       k.U8X8_MSG_GPIO_MENU_NEXT % 256, k.U8X8_MSG_GPIO_MENU_SELECT % 256, k.U8X8_MSG_GPIO_MENU_HOME % 256,
       0] ∧
    (event.type = c.SDL_KEYDOWN →
      (event.sym = c.SDLK_UP → u8x8_GetMenuEvent k c event = k.U8X8_MSG_GPIO_MENU_UP % 256) ∧
      (event.sym = c.SDLK_DOWN → u8x8_GetMenuEvent k c event = k.U8X8_MSG_GPIO_MENU_DOWN % 256) ∧
      (event.sym = c.SDLK_LEFT → u8x8_GetMenuEvent k c event = k.U8X8_MSG_GPIO_MENU_PREV % 256) ∧
      (event.sym = c.SDLK_RIGHT → u8x8_GetMenuEvent k c event = k.U8X8_MSG_GPIO_MENU_NEXT % 256) ∧
      (event.sym = c.SDLK_RETURN → u8x8_GetMenuEvent k c event = k.U8X8_MSG_GPIO_MENU_SELECT % 256) ∧
      (event.sym = c.SDLK_ESCAPE → u8x8_GetMenuEvent k c event = k.U8X8_MSG_GPIO_MENU_HOME % 256)) ∧
    ((event.type ≠ c.SDL_KEYDOWN ∨
        event.sym ∉ [c.SDLK_UP, c.SDLK_DOWN, c.SDLK_LEFT, c.SDLK_RIGHT, c.SDLK_RETURN, c.SDLK_ESCAPE]) →
      u8x8_GetMenuEvent k c event = 0) := by
  have hl := c.case_labels
  simp only [List.nodup_cons, List.mem_cons, List.mem_singleton, not_or, List.not_mem_nil,
    not_false_eq_true, List.nodup_nil, and_true] at hl
  obtain ⟨⟨h12, h13, h14, h15, h16⟩, ⟨h23, h24, h25, h26⟩, ⟨h34, h35, h36⟩, ⟨h45, h46⟩, h56⟩ := hl
  refine ⟨?_, ?_, ?_⟩
  · unfold u8x8_GetMenuEvent
    split_ifs <;> simp
  · intro ht
    unfold u8x8_GetMenuEvent
    rw [if_pos ht]
    refine ⟨?_, ?_, ?_, ?_, ?_, ?_⟩ <;> intro hs <;> rw [hs] <;>
      simp [Ne.symm h12, Ne.symm h13, Ne.symm h14, Ne.symm h15, Ne.symm h16, Ne.symm h23,
        Ne.symm h24, Ne.symm h25, Ne.symm h26, Ne.symm h34, Ne.symm h35, Ne.symm h36,
        Ne.symm h45, Ne.symm h46, Ne.symm h56]
  · intro h
    unfold u8x8_GetMenuEvent
    rcases h with h | h
    · rw [if_neg h]
    · simp only [List.mem_cons, List.mem_singleton, not_or, List.not_mem_nil,
        not_false_eq_true, and_true] at h
      obtain ⟨a1, a2, a3, a4, a5, a6⟩ := h
      simp [a1, a2, a3, a4, a5, a6]

/-- C9 fails on the code: when the window is created and the page surface is not, the
session keeps a window and a null `page_surface`; Set-Data-Control(1) is handled, and the
Byte-Send that follows dereferences the null page surface. -/
theorem c9_null_page_surface_fault :
    (∃ o, u8g2emu_msg_callback u8x8Codes envNoSurface u8g2emu u8x8Codes.U8X8_MSG_BYTE_SET_DC 1 []
        = .ok o ∧ o.session.window.isSome = true ∧ o.session.page_surface = none ∧
        o.session.data_enabled = 1) ∧
    run u8x8Codes [⟨envNoSurface, u8x8Codes.U8X8_MSG_BYTE_SET_DC, 1, []⟩,
        ⟨envAllOk, u8x8Codes.U8X8_MSG_BYTE_SEND, 128, List.replicate 128 0⟩] u8g2emu
      = .error Fault.nullPageSurface :=
  ⟨⟨_, rfl, rfl, rfl, rfl⟩, rfl⟩


theorem callback_data_short (k : U8x8Codes) (env : SdlEnv) (s : u8g2emu_t) (arg : Nat)
    (bytes : List Nat) (hinit : Initialized s) (hd : s.data_enabled ≠ 0)
    (hlen : bytes.length < 128) :
    u8g2emu_msg_callback k env s k.U8X8_MSG_BYTE_SEND arg bytes = .error .payloadOutOfBounds := by
  obtain ⟨surf, hs, hl⟩ := initialized_surface hinit
  rw [callback_send_data k env s arg bytes hinit.1 hd]
  have hwp := writePage_short bytes hlen { pixels := surf.pixels, accesses := [] } hl
  simp only [sendData, hs, hwp]

/-- C10: on an initialized session in data mode the Byte-Send handler does not use `arg`.
With a payload of at least 128 bytes it is handled, the payload indices read are exactly
0..127, the pixel indices stored to are exactly the `b * 128 + i` with `i < 128`, `b < 8`,
all below 1024.  A payload read falls outside the payload exactly when the payload has fewer
than 128 bytes, whatever `arg` is, and two Byte-Sends that differ in `arg` only have the same
result. -/
theorem c10_data_send_ignores_arg (k : U8x8Codes) (env : SdlEnv) (s : u8g2emu_t) (arg : Nat)
    (bytes : List Nat) (hinit : Initialized s) (hdata : s.data_enabled ≠ 0) :
    (128 ≤ bytes.length →
      ∃ o, u8g2emu_msg_callback k env s k.U8X8_MSG_BYTE_SEND arg bytes = .ok o ∧
        (∀ j, Access.readByte j ∈ o.accesses ↔ j < 128) ∧
        (∀ idx, (∃ v, Access.writePixel idx v ∈ o.accesses) ↔
          ∃ i b, i < 128 ∧ b < 8 ∧ idx = b * 128 + i) ∧
        (∀ idx v, Access.writePixel idx v ∈ o.accesses → idx < 1024)) ∧
    (u8g2emu_msg_callback k env s k.U8X8_MSG_BYTE_SEND arg bytes = .error .payloadOutOfBounds ↔
      bytes.length < 128) ∧
    (∀ arg2, u8g2emu_msg_callback k env s k.U8X8_MSG_BYTE_SEND arg2 bytes =
      u8g2emu_msg_callback k env s k.U8X8_MSG_BYTE_SEND arg bytes) := by
  refine ⟨?_, ?_, ?_⟩
  · intro hlen
    obtain ⟨surf, fx, _, h, _, _⟩ := callback_data k env s arg bytes hinit hdata hlen
    refine ⟨_, h, ?_, ?_, ?_⟩
    · intro j; exact mem_pageAccesses_read bytes j
    · intro idx
      simp only [mem_pageAccesses_write]
      constructor
      · rintro ⟨v, i, b, hi, hb, h1, _⟩; exact ⟨i, b, hi, hb, h1⟩
      · rintro ⟨i, b, hi, hb, h1⟩; exact ⟨_, i, b, hi, hb, h1, rfl⟩
    · intro idx v hm
      obtain ⟨i, b, hi, hb, h1, _⟩ := (mem_pageAccesses_write bytes idx v).mp hm
      omega
  · constructor
    · intro herr
      by_contra hlen
      obtain ⟨surf, fx, _, h, _, _⟩ :=
        callback_data k env s arg bytes hinit hdata (by omega)
      rw [h] at herr
      cases herr
    · exact callback_data_short k env s arg bytes hinit hdata
  · intro arg2
    rw [callback_send_data k env s arg2 bytes hinit.1 hdata,
      callback_send_data k env s arg bytes hinit.1 hdata]

theorem c10_data_send_ignores_arg_witness :
    Initialized sessionData ∧ sessionData.data_enabled ≠ 0 ∧
    ((128 ≤ (List.replicate 128 3).length →
      ∃ o, u8g2emu_msg_callback u8x8Codes envAllOk sessionData u8x8Codes.U8X8_MSG_BYTE_SEND 1
          (List.replicate 128 3) = .ok o ∧
        (∀ j, Access.readByte j ∈ o.accesses ↔ j < 128) ∧
        (∀ idx, (∃ v, Access.writePixel idx v ∈ o.accesses) ↔
          ∃ i b, i < 128 ∧ b < 8 ∧ idx = b * 128 + i) ∧
        (∀ idx v, Access.writePixel idx v ∈ o.accesses → idx < 1024)) ∧
    (u8g2emu_msg_callback u8x8Codes envAllOk sessionData u8x8Codes.U8X8_MSG_BYTE_SEND 1
        (List.replicate 128 3) = .error .payloadOutOfBounds ↔
      (List.replicate 128 3).length < 128) ∧
    (∀ arg2, u8g2emu_msg_callback u8x8Codes envAllOk sessionData u8x8Codes.U8X8_MSG_BYTE_SEND arg2
        (List.replicate 128 3) =
      u8g2emu_msg_callback u8x8Codes envAllOk sessionData u8x8Codes.U8X8_MSG_BYTE_SEND 1
        (List.replicate 128 3))) :=
  ⟨sessionData_initialized, by decide,
    c10_data_send_ignores_arg u8x8Codes envAllOk sessionData 1 (List.replicate 128 3)
      sessionData_initialized (by decide)⟩

theorem sessionLit_initialized : Initialized sessionLit := by
  have hl : litSurface.pixels.length = 1024 := by
    rw [litSurface]; exact List.length_replicate _ _
  exact ⟨rfl, by simp [sessionLit, hl]⟩

theorem c7_data_send_idempotent_witness :
    Initialized sessionData ∧ sessionData.data_enabled ≠ 0 ∧
    Initialized sessionLit ∧ sessionLit.data_enabled ≠ 0 ∧
    128 ≤ (List.replicate 128 165).length ∧
    ∃ o1 o2 o3,
      u8g2emu_msg_callback u8x8Codes envAllOk sessionData u8x8Codes.U8X8_MSG_BYTE_SEND 128
        (List.replicate 128 165) = .ok o1 ∧
      u8g2emu_msg_callback u8x8Codes envAllOk o1.session u8x8Codes.U8X8_MSG_BYTE_SEND 128
        (List.replicate 128 165) = .ok o2 ∧
      u8g2emu_msg_callback u8x8Codes envAllOk sessionLit u8x8Codes.U8X8_MSG_BYTE_SEND 128
        (List.replicate 128 165) = .ok o3 ∧
      o2.session.pixels = o1.session.pixels ∧ o3.session.pixels = o1.session.pixels :=
  ⟨sessionData_initialized, by decide, sessionLit_initialized, by decide, by simp,
    c7_data_send_idempotent u8x8Codes envAllOk envAllOk envAllOk sessionData sessionLit 128
      (List.replicate 128 165) sessionData_initialized (by decide) sessionLit_initialized
      (by decide) (by simp)⟩

/-! ## Reachable sessions -/

theorem forUpTo_invariant {σ : Type} (P : σ → Prop) (body : Nat → σ → Except Fault σ)
    (hbody : ∀ i s s1, body i s = .ok s1 → P s → P s1) (n : Nat) (s s1 : σ)
    (h : forUpTo n body s = .ok s1) (hs : P s) : P s1 := by
  induction n generalizing s1 with
  | zero =>
    simp only [forUpTo, Except.ok.injEq] at h
    rw [← h]; exact hs
  | succ n ih =>
    rw [forUpTo_succ] at h
    cases hn : forUpTo n body s with
    | error e => rw [hn] at h; cases h
    | ok s2 =>
      rw [hn] at h
      exact hbody n s2 s1 h (ih s2 hn)

theorem storePixel_length (bytes : List Nat) (i bit : Nat) (r r1 : Raster)
    (h : storePixel bytes i bit r = .ok r1) : r1.pixels.length = r.pixels.length := by
  unfold storePixel at h
  split at h
  · cases h
  · split at h
    · simp only [Except.ok.injEq] at h
      rw [← h]
      simp
    · cases h

theorem writePage_length (bytes : List Nat) (r r1 : Raster) (h : writePage bytes r = .ok r1) :
    r1.pixels.length = r.pixels.length := by
  refine forUpTo_invariant (fun x => x.pixels.length = r.pixels.length) _ ?_ 128 r r1 h rfl
  intro i s s1 hi hs
  refine forUpTo_invariant (fun x => x.pixels.length = r.pixels.length) _ ?_ 8 s s1 hi hs
  intro bit t t1 ht hl
  rw [storePixel_length bytes i bit t t1 ht]; exact hl

theorem setup_sized (env : SdlEnv) (s : u8g2emu_t) (hs : SurfaceSized s) :
    SurfaceSized (u8g2emu_Setup env s).1 := by
  unfold u8g2emu_Setup SurfaceSized
  cases env.createWindow <;> cases env.createSurface <;> cases env.setSurfacePalette <;>
    simp [createIndex8Surface_length]
  all_goals exact hs

theorem handleMessage_sized (k : U8x8Codes) (env : SdlEnv) (s : u8g2emu_t) (fx : List Effect)
    (msg arg : Nat) (bytes : List Nat) (o : Outcome)
    (h : handleMessage k env s fx msg arg bytes = .ok o) (hs : SurfaceSized s) :
    SurfaceSized o.session ∧ o.session.window = s.window := by
  unfold handleMessage at h
  by_cases h1 : msg = k.U8X8_MSG_BYTE_SEND
  · rw [if_pos h1] at h
    by_cases hd : s.data_enabled ≠ 0
    · rw [if_pos hd] at h
      unfold sendData at h
      split at h
      · cases h
      · rename_i surf hsurf
        split at h
        · cases h
        · rename_i r hr
          cases hw : s.window with
          | none => simp [hw] at h
          | some w =>
            simp only [hw, Except.ok.injEq] at h
            subst h
            refine ⟨?_, rfl⟩
            intro surf1 h1
            simp only [Option.some.injEq] at h1
            rw [← h1]
            simp only
            rw [writePage_length bytes _ r hr]
            exact hs surf hsurf
    · rw [if_neg hd] at h
      unfold sendCommands at h
      split at h
      · cases h
      · simp only [Except.ok.injEq] at h
        subst h
        exact ⟨hs, rfl⟩
  · rw [if_neg h1] at h
    by_cases h2 : msg = k.U8X8_MSG_BYTE_SET_DC
    · rw [if_pos h2] at h
      simp only [Except.ok.injEq] at h
      subst h
      exact ⟨hs, rfl⟩
    · rw [if_neg h2] at h
      simp only [ite_self, Except.ok.injEq] at h
      subst h
      exact ⟨hs, rfl⟩

theorem reachable_sized (k : U8x8Codes) (s : u8g2emu_t) (h : Reachable k s) :
    SurfaceSized s := by
  induction h with
  | zero => intro surf hsurf; cases hsurf
  | step s env msg arg bytes o _ hcb ih =>
    rcases callback_cases k env s msg arg bytes with ⟨_, hc⟩ | ⟨_, hc⟩
    · rw [hc] at hcb
      exact (handleMessage_sized k env s [] msg arg bytes o hcb ih).1
    · rw [hc] at hcb
      exact (handleMessage_sized k env _ _ msg arg bytes o hcb (setup_sized env s ih)).1

/-- A reachable session that has both its window and its page surface is initialized. -/
theorem reachable_initialized (k : U8x8Codes) (s : u8g2emu_t) (h : Reachable k s)
    (hw : s.window.isSome = true) (hp : s.page_surface.isSome = true) : Initialized s := by
  refine ⟨hw, ?_⟩
  cases hsurf : s.page_surface with
  | none => rw [hsurf] at hp; cases hp
  | some surf => simp [reachable_sized k s h surf hsurf]

end U8g2emu
